import Mathlib

/-!
Verification of the group / message-history core of the anthill-message service
(`src/model/group.py` and `src/model/history.py`).

The two Python modules are shallowly embedded as pure Lean functions over an
explicit database state (`DBState`): every SQL statement becomes the
corresponding pure list transformation, exceptions become `Except`, and
side effects on external collaborators (cluster service, presence registry,
message queue) become explicit event values. Storage faults that a claim
depends on are modelled by an explicit `Option String` parameter carrying the
`DatabaseError` message, `none` meaning the statement succeeds.
-/

deriving instance DecidableEq for Except

namespace Anthill

/-! ## Data model -/

/-- Row of the `groups` table (`GroupAdapter` in `group.py`). -/
structure Group where
  group_id : Nat
  gamespace : Nat
  group_class : String
  group_key : String
  clustered : Bool
  cluster_size : Nat
deriving DecidableEq

/-- Row of the `group_participants` table (`GroupParticipationAdapter` in `group.py`). -/
structure Participation where
  participation_id : Nat
  gamespace : Nat
  group_id : Nat
  group_class : String
  group_key : String
  account : Nat
  role : String
  cluster_id : Nat
deriving DecidableEq

/-- Row of the `messages` table (`MessageAdapter` in `history.py`).  The payload is
kept as its serialized form (`ujson.dumps`), which no modelled operation inspects. -/
structure Message where
  message_id : Nat
  message_uuid : String
  gamespace : Nat
  sender : Nat
  recipient_class : String
  recipient : String
  time : Nat
  message_type : String
  payload : String
  delivered : Bool
  flags : List String
deriving DecidableEq

/-- The persistent state: the three table contents plus the auto-increment counter
for `participation_id` used by inserts into `group_participants`. -/
structure DBState where
  groups : List Group
  participants : List Participation
  messages : List Message
  next_participation_id : Nat
deriving DecidableEq

/-- Errors raised by `group.py` (`GroupError`, `GroupNotFound`,
`GroupParticipantNotFound`, `GroupExistsError`, `UserAlreadyJoined`). -/
inductive GroupErr where
  | groupError (code : Nat) (message : String)
  | groupNotFound
  | groupParticipantNotFound
  | groupExists
  | userAlreadyJoined
deriving DecidableEq

/-- The `MessageError(code, message)` exception raised by `history.py`. -/
structure MessageErr where
  code : Nat
  message : String
deriving DecidableEq

/-- Side effects emitted towards external collaborators during join/leave:
the presence binding, the `player_joined` / `player_left` notifications sent
through the message queue, and the cluster-release call. -/
inductive GroupEvent where
  | bindAccountToGroup (account : Nat) (participation : Participation)
  | playerJoined (gamespace account : Nat) (group_class recipient : String)
  | playerLeft (gamespace account : Nat) (group_class recipient : String)
  | clusterLeave (gamespace account group_id : Nat)
deriving DecidableEq

/-- Modelled from the spec: the "remove-on-delivery" delivery-modifier flag token
(`DeliveryFlags.REMOVE_DELIVERED` lives in `model/__init__.py`, which is not part
of the provided sources); flag sets are modelled as lists of tokens. -/
def REMOVE_DELIVERED : String := "remove_delivered"

/-- Modelled from the spec: the user-class recipient constant (`CLASS_USER` from
`model/__init__.py`, not part of the provided sources): messages addressed
directly to an account carry this recipient class. -/
def CLASS_USER : String := "user"

/-- Modelled from the spec: the storage collaborator's `execute(query)` call
returns a plain ok status (spec section 6: "execute(query) -> ok"), not the
generated row id (that is what `insert(query)` returns); the status is modelled
as the constant 0. -/
def executeOk : Nat := 0

/-! ## SQL LIKE

`likeFuel` evaluates a SQL LIKE pattern (`%` matches any run of characters,
`_` exactly one) against a string.  Each recursive call strictly decreases
`pattern.length + s.length`, so fuel `pattern.length + s.length` suffices;
the fuel only makes the recursion structural (hence computable by `decide`). -/

def likeFuel : Nat → List Char → List Char → Bool
  | _, [], [] => true
  | 0, _, _ => false
  | n + 1, '%' :: ps, [] => likeFuel n ps []
  | _, _ :: _, [] => false
  | _, [], _ :: _ => false
  | n + 1, '%' :: ps, c :: cs => likeFuel n ps (c :: cs) || likeFuel n ('%' :: ps) cs
  | n + 1, '_' :: ps, _ :: cs => likeFuel n ps cs
  | n + 1, p :: ps, c :: cs => (p == c) && likeFuel n ps cs

/-- SQL `pattern LIKE s` evaluation on strings. -/
def likeMatch (pattern s : String) : Bool :=
  likeFuel (pattern.length + s.length) pattern.toList s.toList

/-! ## history.py: MessagesHistoryModel -/

/-- Embedding of `MessagesHistoryModel.delete_messages_like`.  The SQL reads
`DELETE FROM messages WHERE message_recipient_class LIKE %s AND
message_recipient=%s AND gamespace_id=%s` with arguments
`(recipient_class, recipient_like, gamespace)`: the LIKE is applied to the
recipient *class* with the plain class string, and the `recipient_like`
pattern is compared against `message_recipient` by exact equality.
`dbFail` carries the `DatabaseError` message when the statement fails. -/
def delete_messages_like (gamespace : Nat) (recipient_class recipient_like : String)
    (dbFail : Option String) (st : DBState) : Except MessageErr DBState :=
  match dbFail with
  | some msg => .error ⟨500, "Failed to delete messages: " ++ msg⟩
  | none => .ok { st with messages := st.messages.filter (fun m =>
      !(likeMatch recipient_class m.recipient_class && m.recipient == recipient_like &&
        m.gamespace == gamespace)) }

/-- Embedding of `MessagesHistoryModel.list_incoming_messages`: all messages for
the exact recipient in the gamespace, ordered by time descending, limited. -/
def list_incoming_messages (gamespace : Nat) (recipient_class recipient : String)
    (limit : Nat) (st : DBState) : List Message :=
  (List.insertionSort (fun a b => b.time ≤ a.time)
    (st.messages.filter (fun m =>
      m.recipient_class == recipient_class && m.recipient == recipient &&
      m.gamespace == gamespace))).take limit

/-- Branch (a) of the `list_messages_account` UNION: the correlated subquery
`SELECT group_class, group_key FROM groups, group_participants WHERE
groups.group_class = messages.message_recipient_class AND groups.group_key =
messages.message_recipient AND groups.group_id = group_participants.group_id AND
group_participants.participation_account = account` — note that neither
`groups` nor `group_participants` is filtered by gamespace here, and the
comparison is against the group's exact `group_key`. -/
def group_feed_match (st : DBState) (account : Nat) (m : Message) : Bool :=
  st.groups.any (fun g =>
    g.group_class == m.recipient_class && g.group_key == m.recipient &&
    st.participants.any (fun p => p.group_id == g.group_id && p.account == account))

/-- The UNION DISTINCT of the three arms of the `list_messages_account` read:
the group-membership arm, the direct user-class arm
(`message_recipient = str(account_id)`), and the sender arm, deduplicated. -/
def feed_union (st : DBState) (gamespace account : Nat) : List Message :=
  (st.messages.filter (fun m =>
      m.gamespace == gamespace && group_feed_match st account m) ++
    st.messages.filter (fun m =>
      m.gamespace == gamespace && m.recipient_class == CLASS_USER &&
      m.recipient == toString account) ++
    st.messages.filter (fun m =>
      m.gamespace == gamespace && m.sender == account)).dedup

/-- The union ordered by `message_id` descending and windowed by
`LIMIT offset, limit`. -/
def feed_window (st : DBState) (gamespace account : Nat) (o l : Nat) : List Message :=
  ((List.insertionSort (fun a b => b.message_id ≤ a.message_id)
    (feed_union st gamespace account)).drop o).take l

/-- Embedding of `MessagesHistoryModel.list_messages_account`.  Validation of
limit/offset happens before the (single) storage query; the second component
counts the storage queries issued (0 when validation rejects the call). -/
def list_messages_account (gamespace account : Nat) (limit offset : Int) (st : DBState) :
    Except MessageErr (List Message) × Nat :=
  if limit < 1 || 10000 < limit || offset < 0 || 10000 < offset then
    (.error ⟨400, "Bad limit/offset"⟩, 0)
  else
    (.ok (feed_window st gamespace account offset.toNat limit.toNat), 1)

/-- The selection predicate of `read_incoming_messages`: undelivered messages of
the exact recipient in the gamespace (the `FOR UPDATE` batch). -/
def undelivered_for (gamespace : Nat) (recipient_class recipient : String) (m : Message) : Bool :=
  m.recipient_class == recipient_class && m.recipient == recipient &&
  m.gamespace == gamespace && m.delivered == false

/-- Embedding of `MessagesHistoryModel.read_incoming_messages`: select the
undelivered batch, call the receiver on each message, then mark the confirmed
messages without the remove-on-delivery flag as delivered (`UPDATE ... WHERE
message_id IN mark_delivered_ids`) and delete the confirmed messages with the
flag (`DELETE ... WHERE message_id IN remove_ids`), in that statement order. -/
def read_incoming_messages (gamespace : Nat) (recipient_class recipient : String)
    (receiver : Message → Bool) (st : DBState) : DBState :=
  let batch := st.messages.filter (undelivered_for gamespace recipient_class recipient)
  let confirmed := batch.filter receiver
  let remove_ids := (confirmed.filter (fun m => m.flags.contains REMOVE_DELIVERED)).map
    Message.message_id
  let mark_delivered_ids := (confirmed.filter (fun m =>
    !(m.flags.contains REMOVE_DELIVERED))).map Message.message_id
  let afterMark := st.messages.map (fun m =>
    if m.gamespace == gamespace && mark_delivered_ids.contains m.message_id then
      { m with delivered := true } else m)
  let afterRemove := afterMark.filter (fun m =>
    !(m.gamespace == gamespace && remove_ids.contains m.message_id))
  { st with messages := afterRemove }

/-! ## history.py: MessagesQuery -/

/-- Embedding of the `MessagesQuery` builder state: the optional filters
(Python falsy defaults become `none`) plus offset/limit (both default 0;
the LIMIT clause is only added when `limit` is nonzero). -/
structure MessagesQuery where
  gamespace_id : Nat
  message_sender : Option Nat := none
  message_recipient_class : Option String := none
  message_recipient : Option String := none
  message_type : Option String := none
  message_delivered : Option Bool := none
  offset : Int := 0
  limit : Int := 0
deriving DecidableEq

/-- The WHERE clause composed by `MessagesQuery.__values__`: gamespace always,
then each present filter; the recipient filter is a LIKE pattern. -/
def MessagesQuery.matches (q : MessagesQuery) (m : Message) : Bool :=
  m.gamespace == q.gamespace_id &&
  (match q.message_sender with | none => true | some s => m.sender == s) &&
  (match q.message_recipient_class with | none => true | some c => m.recipient_class == c) &&
  (match q.message_recipient with | none => true | some pat => likeMatch pat m.recipient) &&
  (match q.message_type with | none => true | some t => m.message_type == t) &&
  (match q.message_delivered with | none => true | some d => m.delivered == d)

/-- Embedding of `MessagesQuery.query` (row-returning path): the composed read
is issued as-is — there is no bound validation anywhere in the builder — with
`ORDER BY message_time DESC` and, when `limit` is nonzero,
`LIMIT offset, limit`. -/
def MessagesQuery.run (q : MessagesQuery) (st : DBState) : List Message :=
  let rows := List.insertionSort (fun a b => b.time ≤ a.time) (st.messages.filter q.matches)
  if q.limit ≠ 0 then (rows.drop q.offset.toNat).take q.limit.toNat else rows

/-! ## group.py: GroupsModel -/

/-- Embedding of `GroupParticipationAdapter.calculate_recipient`: the cluster
suffix is appended exactly when `cluster_id` is nonzero (Python truthiness). -/
def calculate_recipient (p : Participation) : String :=
  if p.cluster_id ≠ 0 then p.group_key ++ "-" ++ toString p.cluster_id
  else p.group_key

/-- Embedding of `GroupsModel.accounts_deleted`: deletes the participation rows
of the given accounts, gamespace-scoped when `gamespace_only` is set, global
otherwise. -/
def accounts_deleted (gamespace : Nat) (accounts : List Nat) (gamespace_only : Bool)
    (st : DBState) : DBState :=
  if gamespace_only then
    { st with participants := st.participants.filter (fun p =>
        !(p.gamespace == gamespace && accounts.contains p.account)) }
  else
    { st with participants := st.participants.filter (fun p =>
        !(accounts.contains p.account)) }

/-- Embedding of `GroupsModel.delete_group`: first `delete_messages_like` with
the pattern `group.key + "-%"`; a `MessageError` there is re-raised as
`GroupError` before the group row is touched; only then is the group row
deleted.  `cleanupFail` is the storage fault of the message-deletion statement
(a failed statement mutates nothing). -/
def delete_group (gamespace_id : Nat) (group : Group) (cleanupFail : Option String)
    (st : DBState) : Except GroupErr Unit × DBState :=
  match delete_messages_like gamespace_id group.group_class (group.group_key ++ "-%")
      cleanupFail st with
  | .error e =>
    (.error (.groupError 500 ("Failed to delete group's messages: " ++ e.message)), st)
  | .ok st1 =>
    (.ok (), { st1 with groups := st1.groups.filter (fun g =>
        !(g.group_id == group.group_id && g.gamespace == gamespace_id)) })

/-- Embedding of `GroupsModel.join_group`.  `cluster_assign` is the id returned
by the external Cluster Assignment Service (used only when the group is
clustered, else 0).  The insert assigns `next_participation_id` to the new row,
but — as in the source — the `participation_id` placed in the returned adapter
is the result of `db.execute` (the ok status), not the generated id. -/
def join_group (gamespace : Nat) (group : Group) (account : Nat) (role : String)
    (cluster_assign : Nat) (notify : Bool) (st : DBState) :
    Except GroupErr Participation × DBState × List GroupEvent :=
  let cluster_id := if group.clustered then cluster_assign else 0
  if st.participants.any (fun p =>
      p.gamespace == gamespace && p.group_id == group.group_id && p.account == account) then
    (.error .userAlreadyJoined, st, [])
  else
    let row : Participation :=
      { participation_id := st.next_participation_id, gamespace,
        group_id := group.group_id, group_class := group.group_class,
        group_key := group.group_key, account, role, cluster_id }
    let st1 := { st with participants := st.participants ++ [row],
                         next_participation_id := st.next_participation_id + 1 }
    let participation : Participation :=
      { participation_id := executeOk, gamespace,
        group_id := group.group_id, group_class := group.group_class,
        group_key := group.group_key, account, role, cluster_id }
    let events := [GroupEvent.bindAccountToGroup account participation] ++
      (if notify then
        [GroupEvent.playerJoined gamespace account group.group_class
          (calculate_recipient participation)]
      else [])
    (.ok participation, st1, events)

/-- Embedding of `GroupsModel.find_group_participant`: single-row lookup of the
participation of `account` in `group_id` within the gamespace. -/
def find_group_participant (gamespace group_id account : Nat) (st : DBState) :
    Except GroupErr Participation :=
  match st.participants.find? (fun p =>
      p.group_id == group_id && p.account == account && p.gamespace == gamespace) with
  | none => .error .groupParticipantNotFound
  | some p => .ok p

/-- Embedding of `GroupsModel.leave_group`: the participation is looked up
first (raising `GroupParticipantNotFound` before anything is touched), then
deleted; a nonzero cluster id triggers the cluster-release call, and `notify`
triggers the `player_left` message. -/
def leave_group (gamespace : Nat) (group : Group) (account : Nat) (notify : Bool)
    (st : DBState) : Except GroupErr Unit × DBState × List GroupEvent :=
  match find_group_participant gamespace group.group_id account st with
  | .error e => (.error e, st, [])
  | .ok participation =>
    let st1 := { st with participants := st.participants.filter (fun p =>
        !(p.gamespace == gamespace && p.participation_id == participation.participation_id)) }
    let events :=
      (if participation.cluster_id ≠ 0 then
        [GroupEvent.clusterLeave gamespace account group.group_id]
      else []) ++
      (if notify then
        [GroupEvent.playerLeft gamespace account group.group_class
          (calculate_recipient participation)]
      else [])
    (.ok (), st1, events)

/-! ## Derived definitions used to state the theorems -/

/-- Extracts the row list of a successful `list_messages_account` result
(empty on error); used to state properties of the returned feed without an
existential. -/
def okRows : Except MessageErr (List Message) × Nat → List Message
  | (.ok l, _) => l
  | (.error _, _) => []

/-- Spec-side characterization of account-feed membership (for the amended C2):
the message belongs to the gamespace and either is addressed to the exact
`(group_class, group_key)` pair of some group the account has a participation
row in (matched across the whole groups table, exactly as the query's
subquery does), or is addressed to the account as a user-class recipient, or
was sent by the account. -/
def account_feed_spec (st : DBState) (gamespace account : Nat) (m : Message) : Bool :=
  m.gamespace == gamespace &&
  (group_feed_match st account m ||
   (m.recipient_class == CLASS_USER && m.recipient == toString account) ||
   m.sender == account)

/-- The `remove_ids` local of `read_incoming_messages`: ids of the confirmed
undelivered messages carrying the remove-on-delivery flag. -/
def remove_ids (gamespace : Nat) (recipient_class recipient : String)
    (receiver : Message → Bool) (st : DBState) : List Nat :=
  (((st.messages.filter (undelivered_for gamespace recipient_class recipient)).filter
    receiver).filter (fun m => m.flags.contains REMOVE_DELIVERED)).map Message.message_id

/-- The `mark_delivered_ids` local of `read_incoming_messages`: ids of the
confirmed undelivered messages without the remove-on-delivery flag. -/
def mark_delivered_ids (gamespace : Nat) (recipient_class recipient : String)
    (receiver : Message → Bool) (st : DBState) : List Nat :=
  (((st.messages.filter (undelivered_for gamespace recipient_class recipient)).filter
    receiver).filter (fun m => !(m.flags.contains REMOVE_DELIVERED))).map Message.message_id

/-- The row transformation of the `UPDATE ... SET message_delivered=1` statement
of `read_incoming_messages`. -/
def mark_step (gamespace : Nat) (recipient_class recipient : String)
    (receiver : Message → Bool) (st : DBState) : Message → Message :=
  fun m =>
    if m.gamespace == gamespace &&
        (mark_delivered_ids gamespace recipient_class recipient receiver st).contains
          m.message_id then
      { m with delivered := true } else m

/-- The row-keeping predicate of the `DELETE ... WHERE message_id IN remove_ids`
statement of `read_incoming_messages`. -/
def remove_step (gamespace : Nat) (recipient_class recipient : String)
    (receiver : Message → Bool) (st : DBState) : Message → Bool :=
  fun m =>
    !(m.gamespace == gamespace &&
      (remove_ids gamespace recipient_class recipient receiver st).contains m.message_id)

/-! ## Concrete fixtures for witnesses and counterexamples -/

def grpGuild : Group :=
  { group_id := 1, gamespace := 1, group_class := "group", group_key := "guild",
    clustered := true, cluster_size := 1000 }

def grpParty : Group :=
  { group_id := 2, gamespace := 1, group_class := "party", group_key := "p1",
    clustered := false, cluster_size := 1000 }

def msgGuild1 : Message :=
  { message_id := 10, message_uuid := "u10", gamespace := 1, sender := 2,
    recipient_class := "group", recipient := "guild-1", time := 5,
    message_type := "chat", payload := "p", delivered := false, flags := [] }

def msgGuildPct : Message :=
  { message_id := 11, message_uuid := "u11", gamespace := 1, sender := 2,
    recipient_class := "group", recipient := "guild-%", time := 6,
    message_type := "chat", payload := "p", delivered := false, flags := [] }

def stDel : DBState :=
  { groups := [grpGuild], participants := [], messages := [msgGuild1, msgGuildPct],
    next_participation_id := 1 }

def stJoin : DBState :=
  { groups := [grpParty], participants := [], messages := [], next_participation_id := 5 }

def pGuild7 : Participation :=
  { participation_id := 1, gamespace := 1, group_id := 1, group_class := "group",
    group_key := "guild", account := 7, role := "member", cluster_id := 7 }

def pGuild0 : Participation :=
  { pGuild7 with participation_id := 2, cluster_id := 0 }

def pOther : Participation :=
  { participation_id := 3, gamespace := 1, group_id := 1, group_class := "group",
    group_key := "guild", account := 8, role := "member", cluster_id := 0 }

def stLeave : DBState :=
  { groups := [grpGuild], participants := [pOther], messages := [],
    next_participation_id := 4 }

def pGuildC3 : Participation :=
  { pGuild7 with cluster_id := 3 }

def mClu : Message :=
  { message_id := 10, message_uuid := "uA", gamespace := 1, sender := 99,
    recipient_class := "group", recipient := "guild-3", time := 1,
    message_type := "chat", payload := "p", delivered := false, flags := [] }

def stClu : DBState :=
  { groups := [grpGuild], participants := [pGuildC3], messages := [mClu],
    next_participation_id := 9 }

def mFeedGroup : Message :=
  { message_id := 3, message_uuid := "uG", gamespace := 1, sender := 9,
    recipient_class := "group", recipient := "guild", time := 3,
    message_type := "chat", payload := "p", delivered := false, flags := [] }

def mFeedUser : Message :=
  { message_id := 2, message_uuid := "uU", gamespace := 1, sender := 9,
    recipient_class := CLASS_USER, recipient := "7", time := 2,
    message_type := "chat", payload := "p", delivered := false, flags := [] }

def mFeedSender : Message :=
  { message_id := 1, message_uuid := "uS", gamespace := 1, sender := 7,
    recipient_class := "group", recipient := "elsewhere", time := 1,
    message_type := "chat", payload := "p", delivered := false, flags := [] }

def stFeed : DBState :=
  { groups := [grpGuild], participants := [pGuild0],
    messages := [mFeedGroup, mFeedUser, mFeedSender], next_participation_id := 9 }

def mIncRemove : Message :=
  { message_id := 1, message_uuid := "i1", gamespace := 1, sender := 9,
    recipient_class := "user", recipient := "7", time := 1,
    message_type := "chat", payload := "p", delivered := false,
    flags := [REMOVE_DELIVERED] }

def mIncMark : Message :=
  { message_id := 2, message_uuid := "i2", gamespace := 1, sender := 9,
    recipient_class := "user", recipient := "7", time := 2,
    message_type := "chat", payload := "p", delivered := false, flags := [] }

def mIncSkip : Message :=
  { message_id := 3, message_uuid := "i3", gamespace := 1, sender := 9,
    recipient_class := "user", recipient := "7", time := 3,
    message_type := "chat", payload := "p", delivered := false, flags := [] }

def mIncDone : Message :=
  { message_id := 4, message_uuid := "i4", gamespace := 1, sender := 9,
    recipient_class := "user", recipient := "7", time := 4,
    message_type := "chat", payload := "p", delivered := true, flags := [] }

def stInc : DBState :=
  { groups := [], participants := [],
    messages := [mIncRemove, mIncMark, mIncSkip, mIncDone], next_participation_id := 1 }

/-- A receiver that confirms delivery of messages 1 and 2 only. -/
def recvFirstTwo : Message → Bool := fun m => m.message_id == 1 || m.message_id == 2

/-- A receiver that confirms every delivery. -/
def recvTrue : Message → Bool := fun _ => true

def mQRow : Message :=
  { message_id := 20, message_uuid := "q1", gamespace := 1, sender := 9,
    recipient_class := "user", recipient := "7", time := 1,
    message_type := "chat", payload := "p", delivered := false, flags := [] }

def stQ : DBState :=
  { groups := [], participants := [], messages := [mQRow], next_participation_id := 1 }

/-- A builder query with a limit the spec says must be rejected. -/
def qBig : MessagesQuery := { gamespace_id := 1, limit := 10001 }

def grpGs2 : Group :=
  { group_id := 9, gamespace := 2, group_class := "group", group_key := "guild",
    clustered := false, cluster_size := 1000 }

def pGs2 : Participation :=
  { participation_id := 9, gamespace := 2, group_id := 9, group_class := "group",
    group_key := "guild", account := 7, role := "member", cluster_id := 0 }

def mGs2 : Message :=
  { message_id := 30, message_uuid := "uB", gamespace := 2, sender := 7,
    recipient_class := "user", recipient := "7", time := 0,
    message_type := "chat", payload := "p", delivered := false, flags := [] }

def stIso : DBState :=
  { groups := [grpGs2], participants := [pGs2], messages := [mGs2],
    next_participation_id := 1 }

/-! ## Claims -/

/-- Helper: a map whose function fixes `a` keeps `a` a member. -/
theorem mem_map_self {α : Type} {f : α → α} {l : List α} {a : α}
    (ha : a ∈ l) (hfa : f a = a) : a ∈ l.map f :=
  hfa ▸ List.mem_map_of_mem f ha

/-- C9: the derived recipient key of a participation equals `group_key` when
`cluster_id = 0` and `group_key ++ "-" ++ cluster_id` otherwise; in particular
for `group_key = "guild"` it is `"guild-7"` at `cluster_id = 7` and `"guild"`
at `cluster_id = 0`. -/
theorem C9_recipient_key (p : Participation) :
    (p.cluster_id = 0 → calculate_recipient p = p.group_key) ∧
    (p.cluster_id ≠ 0 →
      calculate_recipient p = p.group_key ++ "-" ++ toString p.cluster_id) ∧
    (p.group_key = "guild" → p.cluster_id = 7 → calculate_recipient p = "guild-7") ∧
    (p.group_key = "guild" → p.cluster_id = 0 → calculate_recipient p = "guild") := by
  refine ⟨fun h => by simp [calculate_recipient, h],
    fun h => by simp [calculate_recipient, h],
    fun hk h7 => by simp only [calculate_recipient, hk, h7]; decide,
    fun hk h0 => by simp only [calculate_recipient, hk, h0]; decide⟩

/-- Witness for C9 at the two concrete participations of the claim. -/
theorem C9_recipient_key_witness :
    calculate_recipient pGuild7 = "guild-7" ∧ calculate_recipient pGuild0 = "guild" :=
  ⟨(C9_recipient_key pGuild7).2.2.1 rfl rfl, (C9_recipient_key pGuild0).2.2.2 rfl rfl⟩

/-- C1 (code bug): a successful `delete_group` leaves the message addressed to
the cluster-partitioned recipient `"guild-1"` in place, while the group row is
gone.  The cause is in `delete_messages_like`: its SQL applies `LIKE` to
`message_recipient_class` (bound to the plain class string) and compares
`message_recipient` by exact equality against the pattern `"guild-%"`, so the
only message it deletes is one whose recipient is the literal string
`"guild-%"` — contradicting both the function's own name/parameter
(`recipient_like`) and the spec's prefix-match cascade. -/
theorem C1_delete_group_cluster_messages_survive :
    (delete_group 1 grpGuild none stDel).1 = .ok () ∧
    (delete_group 1 grpGuild none stDel).2.groups = [] ∧
    msgGuild1 ∈ (delete_group 1 grpGuild none stDel).2.messages ∧
    msgGuildPct ∉ (delete_group 1 grpGuild none stDel).2.messages := by
  decide

/-- C4: when the message-cleanup phase of `delete_group` fails, the call
returns the wrapped `GroupError` and the state is exactly the input state —
in particular the group row still exists, because the row is only deleted
after the cleanup statement succeeds. -/
theorem C4_delete_group_fails_closed (gamespace_id : Nat) (group : Group)
    (msg : String) (st : DBState) :
    delete_group gamespace_id group (some msg) st =
      (.error (.groupError 500 ("Failed to delete group's messages: " ++
        ("Failed to delete messages: " ++ msg))), st) ∧
    (delete_group gamespace_id group (some msg) st).2.groups = st.groups :=
  ⟨rfl, rfl⟩

/-- C5 (code bug): a successful `join_group` inserts a participation row whose
generated id is the auto-increment value (5 here), but the Participation it
returns carries the `db.execute` ok status (0) as `participation_id` — the code
binds the result of `execute`, which per the storage interface returns a plain
ok, where the generated id would require `insert` (as `new_group` uses).  All
other returned fields do equal the inserted values. -/
theorem C5_join_returns_execute_status_not_row_id :
    (join_group 1 grpParty 7 "member" 0 false stJoin).1 =
      .ok { participation_id := 0, gamespace := 1, group_id := 2,
            group_class := "party", group_key := "p1", account := 7,
            role := "member", cluster_id := 0 } ∧
    ((join_group 1 grpParty 7 "member" 0 false stJoin).2.1.participants.map
      Participation.participation_id) = [5] := by
  decide

/-- C8: leaving a group the account never joined fails with
`GroupParticipantNotFound`, leaves the whole state untouched and emits no
event (no cluster release, no `player_left` notification). -/
theorem C8_leave_not_joined_no_mutation (gamespace : Nat) (group : Group)
    (account : Nat) (notify : Bool) (st : DBState)
    (h : ∀ p ∈ st.participants,
      ¬(p.group_id == group.group_id && p.account == account &&
        p.gamespace == gamespace) = true) :
    leave_group gamespace group account notify st =
      (.error .groupParticipantNotFound, st, []) := by
  have hf : st.participants.find? (fun p =>
      p.group_id == group.group_id && p.account == account &&
      p.gamespace == gamespace) = none := List.find?_eq_none.mpr h
  unfold leave_group find_group_participant
  rw [hf]

/-- Witness for C8: account 7 is not a member of the guild group (only account
8 is), so the leave fails and mutates nothing. -/
theorem C8_leave_not_joined_no_mutation_witness :
    leave_group 1 grpGuild 7 true stLeave =
      (.error .groupParticipantNotFound, stLeave, []) :=
  C8_leave_not_joined_no_mutation 1 grpGuild 7 true stLeave (by decide)

/-- C7: `list_messages_account` rejects any limit outside [1,10000] or offset
outside [0,10000] with the `MessageError 400 "Bad limit/offset"` validation
error, issuing zero storage queries (second component 0) — so no stored state
can be touched. -/
theorem C7_pagination_validated_before_io (gamespace account : Nat)
    (limit offset : Int) (st : DBState)
    (h : limit < 1 ∨ 10000 < limit ∨ offset < 0 ∨ 10000 < offset) :
    list_messages_account gamespace account limit offset st =
      (.error ⟨400, "Bad limit/offset"⟩, 0) := by
  have hc : (limit < 1 || 10000 < limit || offset < 0 || 10000 < offset) = true := by
    rcases h with h | h | h | h <;> simp [h]
  unfold list_messages_account
  simp [hc]

/-- Witness for C7 at the four boundary inputs named by the claim. -/
theorem C7_pagination_validated_before_io_witness :
    list_messages_account 1 7 0 0 stQ = (.error ⟨400, "Bad limit/offset"⟩, 0) ∧
    list_messages_account 1 7 10001 0 stQ = (.error ⟨400, "Bad limit/offset"⟩, 0) ∧
    list_messages_account 1 7 100 (-1) stQ = (.error ⟨400, "Bad limit/offset"⟩, 0) ∧
    list_messages_account 1 7 100 10001 stQ = (.error ⟨400, "Bad limit/offset"⟩, 0) :=
  ⟨C7_pagination_validated_before_io 1 7 0 0 stQ (Or.inl (by decide)),
   C7_pagination_validated_before_io 1 7 10001 0 stQ (Or.inr (Or.inl (by decide))),
   C7_pagination_validated_before_io 1 7 100 (-1) stQ
     (Or.inr (Or.inr (Or.inl (by decide)))),
   C7_pagination_validated_before_io 1 7 100 10001 stQ
     (Or.inr (Or.inr (Or.inr (by decide))))⟩

/-- C10: tenant isolation.  For every operation invoked with gamespace `g`
(and for `accounts_deleted` with `gamespace_only = true`), every group,
participation and message row of a different gamespace is left in place, and
list results only ever contain rows of gamespace `g`. -/
theorem C10_tenant_isolation (g : Nat) (st : DBState) :
    (∀ rc rl st1, delete_messages_like g rc rl none st = .ok st1 →
      (∀ m ∈ st.messages, m.gamespace ≠ g → m ∈ st1.messages) ∧
      st1.groups = st.groups ∧ st1.participants = st.participants) ∧
    (∀ rc r recv,
      (∀ m ∈ st.messages, m.gamespace ≠ g →
        m ∈ (read_incoming_messages g rc r recv st).messages) ∧
      (read_incoming_messages g rc r recv st).groups = st.groups ∧
      (read_incoming_messages g rc r recv st).participants = st.participants) ∧
    (∀ accounts,
      (∀ p ∈ st.participants, p.gamespace ≠ g →
        p ∈ (accounts_deleted g accounts true st).participants) ∧
      (accounts_deleted g accounts true st).groups = st.groups ∧
      (accounts_deleted g accounts true st).messages = st.messages) ∧
    (∀ group cf,
      (∀ gr ∈ st.groups, gr.gamespace ≠ g →
        gr ∈ (delete_group g group cf st).2.groups) ∧
      (∀ m ∈ st.messages, m.gamespace ≠ g →
        m ∈ (delete_group g group cf st).2.messages)) ∧
    (∀ group account notify, ∀ p ∈ st.participants, p.gamespace ≠ g →
      p ∈ (leave_group g group account notify st).2.1.participants) ∧
    (∀ group account role ca notify, ∀ p ∈ st.participants, p.gamespace ≠ g →
      p ∈ (join_group g group account role ca notify st).2.1.participants) ∧
    (∀ rc r lim, ∀ m ∈ list_incoming_messages g rc r lim st, m.gamespace = g) ∧
    (∀ account lim off l, (list_messages_account g account lim off st).1 = .ok l →
      ∀ m ∈ l, m.gamespace = g) := by
  refine ⟨?_, ?_, ?_, ?_, ?_, ?_, ?_, ?_⟩
  · -- delete_messages_like
    intro rc rl st1 h
    simp only [delete_messages_like, Except.ok.injEq] at h
    subst h
    refine ⟨fun m hm hne => ?_, rfl, rfl⟩
    have hb : (m.gamespace == g) = false := beq_eq_false_iff_ne.mpr hne
    exact List.mem_filter.mpr ⟨hm, by simp [hb]⟩
  · -- read_incoming_messages
    intro rc r recv
    refine ⟨fun m hm hne => ?_, rfl, rfl⟩
    have hb : (m.gamespace == g) = false := beq_eq_false_iff_ne.mpr hne
    simp only [read_incoming_messages]
    exact List.mem_filter.mpr ⟨mem_map_self hm (by simp [hb]), by simp [hb]⟩
  · -- accounts_deleted gamespace-only
    intro accounts
    refine ⟨fun p hp hne => ?_, rfl, rfl⟩
    have hb : (p.gamespace == g) = false := beq_eq_false_iff_ne.mpr hne
    simp only [accounts_deleted, if_pos]
    exact List.mem_filter.mpr ⟨hp, by simp [hb]⟩
  · -- delete_group
    intro group cf
    cases cf with
    | some msg => exact ⟨fun gr hg _ => hg, fun m hm _ => hm⟩
    | none =>
      refine ⟨fun gr hg hne => ?_, fun m hm hne => ?_⟩
      · have hb : (gr.gamespace == g) = false := beq_eq_false_iff_ne.mpr hne
        exact List.mem_filter.mpr ⟨hg, by simp [hb]⟩
      · have hb : (m.gamespace == g) = false := beq_eq_false_iff_ne.mpr hne
        exact List.mem_filter.mpr ⟨hm, by simp [hb]⟩
  · -- leave_group
    intro group account notify p hp hne
    have hb : (p.gamespace == g) = false := beq_eq_false_iff_ne.mpr hne
    unfold leave_group
    cases hf : find_group_participant g group.group_id account st with
    | error e => exact hp
    | ok part => exact List.mem_filter.mpr ⟨hp, by simp [hb]⟩
  · -- join_group
    intro group account role ca notify p hp hne
    simp only [join_group]
    split
    · exact hp
    · exact List.mem_append_left _ hp
  · -- list_incoming_messages
    intro rc r lim m hm
    have h1 := (List.perm_insertionSort _ _).subset ((List.take_sublist _ _).subset hm)
    simp only [List.mem_filter, Bool.and_eq_true, beq_iff_eq] at h1
    exact h1.2.2
  · -- list_messages_account
    intro account lim off l hok m hm
    unfold list_messages_account at hok
    split at hok
    · exact absurd hok (by simp)
    · simp only [Except.ok.injEq] at hok
      subst hok
      simp only [feed_window] at hm
      have h1 := (List.perm_insertionSort _ _).subset
        ((List.drop_sublist _ _).subset ((List.take_sublist _ _).subset hm))
      simp only [feed_union, List.mem_dedup] at h1
      rcases List.mem_append.mp h1 with h2 | h2
      · rcases List.mem_append.mp h2 with h3 | h3
        · simp only [List.mem_filter, Bool.and_eq_true, beq_iff_eq] at h3
          exact h3.2.1
        · simp only [List.mem_filter, Bool.and_eq_true, beq_iff_eq] at h3
          exact h3.2.1.1
      · simp only [List.mem_filter, Bool.and_eq_true, beq_iff_eq] at h2
        exact h2.2.1

/-- Witness for C10: with gamespace-2 rows in the state, operations invoked for
gamespace 1 keep the gamespace-2 message, participation and group rows. -/
theorem C10_tenant_isolation_witness :
    mGs2 ∈ (read_incoming_messages 1 "user" "7" recvTrue stIso).messages ∧
    pGs2 ∈ (accounts_deleted 1 [7] true stIso).participants ∧
    grpGs2 ∈ (delete_group 1 grpGuild none stIso).2.groups :=
  ⟨((C10_tenant_isolation 1 stIso).2.1 "user" "7" recvTrue).1 mGs2 (by decide) (by decide),
   ((C10_tenant_isolation 1 stIso).2.2.1 [7]).1 pGs2 (by decide) (by decide),
   ((C10_tenant_isolation 1 stIso).2.2.2.1 grpGuild none).1 grpGs2 (by decide)
     (by decide)⟩

/-- C6 counterexample: executing the builder with limit 10001 issues the read
and returns the stored row — the builder has no validation (and no error path)
at all, contradicting the claim that out-of-range limit/offset is rejected. -/
theorem C6_builder_no_validation_counterexample :
    qBig.run stQ = [mQRow] := by
  decide

/-- C6 (amended): the query builder itself performs no limit/offset
validation — it issues the composed read for any limit/offset, and every row
it returns matches its filters; the [1,10000] / [0,10000] bound validation is
enforced instead by `list_messages_account`, which rejects out-of-range values
with the 400 validation error before reading. -/
theorem C6_builder_unvalidated_reads :
    (∀ q : MessagesQuery, ∀ st : DBState, ∀ m ∈ q.run st, q.matches m = true) ∧
    (∀ gamespace account : Nat, ∀ limit offset : Int, ∀ st : DBState,
      (limit < 1 ∨ 10000 < limit ∨ offset < 0 ∨ 10000 < offset) →
      (list_messages_account gamespace account limit offset st).1 =
        .error ⟨400, "Bad limit/offset"⟩) := by
  constructor
  · intro q st m hm
    unfold MessagesQuery.run at hm
    split at hm
    · have h1 := (List.perm_insertionSort _ _).subset
        ((List.drop_sublist _ _).subset ((List.take_sublist _ _).subset hm))
      exact (List.mem_filter.mp h1).2
    · have h1 := (List.perm_insertionSort _ _).subset hm
      exact (List.mem_filter.mp h1).2
  · intro gamespace account limit offset st h
    have hc : (limit < 1 || 10000 < limit || offset < 0 || 10000 < offset) = true := by
      rcases h with h | h | h | h <;> simp [h]
    unfold list_messages_account
    simp [hc]

/-- Witness for C6: the over-limit builder read really returned the row, and
the same bound fed to `list_messages_account` is rejected. -/
theorem C6_builder_unvalidated_reads_witness :
    qBig.matches mQRow = true ∧
    (list_messages_account 1 7 10001 0 stQ).1 = .error ⟨400, "Bad limit/offset"⟩ :=
  ⟨C6_builder_unvalidated_reads.1 qBig stQ mQRow (by decide),
   C6_builder_unvalidated_reads.2 1 7 10001 0 stQ (Or.inr (Or.inl (by decide)))⟩

/-- C3: after `read_incoming_messages`, writing N for the undelivered batch of
the recipient and S for the subset the receiver confirmed: confirmed messages
with the remove-on-delivery flag no longer exist (no surviving row has their
id), confirmed messages without the flag are present marked `delivered = true`,
unconfirmed batch messages are unchanged — still undelivered and still returned
by a subsequent `list_incoming_messages` (given a limit covering the matching
rows) — and every message handed to the receiver (the batch) was undelivered. -/
theorem C3_read_incoming_delivery (g : Nat) (rc r : String) (recv : Message → Bool)
    (st : DBState) (limit : Nat)
    (hN : (st.messages.map Message.message_id).Nodup)
    (hlim : ((read_incoming_messages g rc r recv st).messages.filter
      (fun m => m.recipient_class == rc && m.recipient == r && m.gamespace == g)).length
        ≤ limit) :
    (∀ m ∈ st.messages.filter (undelivered_for g rc r), m.delivered = false) ∧
    (∀ m ∈ st.messages.filter (undelivered_for g rc r), recv m = true →
      m.flags.contains REMOVE_DELIVERED = true →
      ∀ x ∈ (read_incoming_messages g rc r recv st).messages,
        x.message_id ≠ m.message_id) ∧
    (∀ m ∈ st.messages.filter (undelivered_for g rc r), recv m = true →
      m.flags.contains REMOVE_DELIVERED = false →
      { m with delivered := true } ∈ (read_incoming_messages g rc r recv st).messages) ∧
    (∀ m ∈ st.messages.filter (undelivered_for g rc r), recv m = false →
      m ∈ (read_incoming_messages g rc r recv st).messages ∧ m.delivered = false ∧
      m ∈ list_incoming_messages g rc r limit (read_incoming_messages g rc r recv st)) := by
  have hres : (read_incoming_messages g rc r recv st).messages =
      (st.messages.map (mark_step g rc r recv st)).filter (remove_step g rc r recv st) := rfl
  have hbatch : ∀ m ∈ st.messages.filter (undelivered_for g rc r),
      m ∈ st.messages ∧ m.recipient_class = rc ∧ m.recipient = r ∧ m.gamespace = g ∧
        m.delivered = false := by
    intro m hm
    have h1 := List.mem_filter.mp hm
    have h2 := h1.2
    simp only [undelivered_for, Bool.and_eq_true, beq_iff_eq] at h2
    exact ⟨h1.1, h2.1.1.1, h2.1.1.2, h2.1.2, h2.2⟩
  have hinj : ∀ a ∈ st.messages, ∀ b ∈ st.messages, a.message_id = b.message_id → a = b :=
    fun a ha b hb => List.inj_on_of_nodup_map hN ha hb
  have hkIds : ∀ m ∈ st.messages.filter (undelivered_for g rc r), recv m = true →
      m.flags.contains REMOVE_DELIVERED = false →
      m.message_id ∈ mark_delivered_ids g rc r recv st := by
    intro m hm hr hf
    exact List.mem_map_of_mem _
      (List.mem_filter.mpr ⟨List.mem_filter.mpr ⟨hm, hr⟩, by rw [hf]; rfl⟩)
  have hrIds : ∀ m ∈ st.messages.filter (undelivered_for g rc r), recv m = true →
      m.flags.contains REMOVE_DELIVERED = true →
      m.message_id ∈ remove_ids g rc r recv st := by
    intro m hm hr hf
    exact List.mem_map_of_mem _
      (List.mem_filter.mpr ⟨List.mem_filter.mpr ⟨hm, hr⟩, hf⟩)
  have hrIds_src : ∀ i ∈ remove_ids g rc r recv st, ∃ m', m' ∈ st.messages ∧
      recv m' = true ∧ m'.flags.contains REMOVE_DELIVERED = true ∧
      m'.message_id = i := by
    intro i hi
    obtain ⟨m', hm', hid⟩ := List.mem_map.mp hi
    have h1 := List.mem_filter.mp hm'
    have h2 := List.mem_filter.mp h1.1
    have h3 := List.mem_filter.mp h2.1
    exact ⟨m', h3.1, h2.2, h1.2, hid⟩
  have hkIds_src : ∀ i ∈ mark_delivered_ids g rc r recv st, ∃ m', m' ∈ st.messages ∧
      recv m' = true ∧ m'.flags.contains REMOVE_DELIVERED = false ∧
      m'.message_id = i := by
    intro i hi
    obtain ⟨m', hm', hid⟩ := List.mem_map.mp hi
    have h1 := List.mem_filter.mp hm'
    have h2 := List.mem_filter.mp h1.1
    have h3 := List.mem_filter.mp h2.1
    exact ⟨m', h3.1, h2.2, by simpa using h1.2, hid⟩
  have hmark_id : ∀ m, (mark_step g rc r recv st m).message_id = m.message_id := by
    intro m
    unfold mark_step
    split <;> rfl
  have hmark_gs : ∀ m, (mark_step g rc r recv st m).gamespace = m.gamespace := by
    intro m
    unfold mark_step
    split <;> rfl
  refine ⟨fun m hm => (hbatch m hm).2.2.2.2, ?_, ?_, ?_⟩
  · -- confirmed + flagged: removed
    intro m hm hr hf x hx hxid
    rw [hres] at hx
    have hx1 := List.mem_filter.mp hx
    obtain ⟨y, hy, hyx⟩ := List.mem_map.mp hx1.1
    have hxy_id : x.message_id = y.message_id := by
      rw [← hyx]
      exact hmark_id y
    have hym : y = m := hinj y hy m (hbatch m hm).1 (by rw [← hxy_id, hxid])
    have hx_gs : x.gamespace = g := by
      rw [← hyx, hmark_gs, hym]
      exact (hbatch m hm).2.2.2.1
    have hrm := hrIds m hm hr hf
    have hx2 := hx1.2
    rw [remove_step] at hx2
    simp [hx_gs, hxid, hrm] at hx2
  · -- confirmed + unflagged: marked delivered
    intro m hm hr hf
    rw [hres]
    have hgs : (m.gamespace == g) = true := beq_iff_eq.mpr (hbatch m hm).2.2.2.1
    have hnot : m.message_id ∉ remove_ids g rc r recv st := by
      intro hin
      obtain ⟨m', h1, h2, h3, h4⟩ := hrIds_src _ hin
      have he : m' = m := hinj m' h1 m (hbatch m hm).1 h4
      rw [he] at h3
      rw [h3] at hf
      cases hf
    refine List.mem_filter.mpr ⟨?_, ?_⟩
    · have hstep : mark_step g rc r recv st m = { m with delivered := true } := by
        rw [mark_step]
        rw [if_pos]
        rw [Bool.and_eq_true]
        exact ⟨hgs, by simp [hkIds m hm hr hf]⟩
      exact hstep ▸ List.mem_map_of_mem _ (hbatch m hm).1
    · rw [remove_step]
      simp [hnot]
  · -- unconfirmed: untouched, still undelivered, still listed
    intro m hm hrf
    have hmem : m ∈ st.messages := (hbatch m hm).1
    have hnk : m.message_id ∉ mark_delivered_ids g rc r recv st := by
      intro hin
      obtain ⟨m', h1, h2, h3, h4⟩ := hkIds_src _ hin
      have he : m' = m := hinj m' h1 m hmem h4
      rw [he] at h2
      simp [hrf] at h2
    have hnr : m.message_id ∉ remove_ids g rc r recv st := by
      intro hin
      obtain ⟨m', h1, h2, h3, h4⟩ := hrIds_src _ hin
      have he : m' = m := hinj m' h1 m hmem h4
      rw [he] at h2
      simp [hrf] at h2
    have hstep : mark_step g rc r recv st m = m := by
      rw [mark_step]
      rw [if_neg]
      simp [hnk]
    have hmm : m ∈ (read_incoming_messages g rc r recv st).messages := by
      rw [hres]
      refine List.mem_filter.mpr ⟨mem_map_self hmem hstep, ?_⟩
      rw [remove_step]
      simp [hnr]
    refine ⟨hmm, (hbatch m hm).2.2.2.2, ?_⟩
    have hQ : m ∈ (read_incoming_messages g rc r recv st).messages.filter
        (fun m2 => m2.recipient_class == rc && m2.recipient == r &&
          m2.gamespace == g) := by
      refine List.mem_filter.mpr ⟨hmm, ?_⟩
      simp [(hbatch m hm).2.1, (hbatch m hm).2.2.1, (hbatch m hm).2.2.2.1]
    have hperm := List.perm_insertionSort (fun a b => b.time ≤ a.time)
      ((read_incoming_messages g rc r recv st).messages.filter
        (fun m2 => m2.recipient_class == rc && m2.recipient == r && m2.gamespace == g))
    unfold list_incoming_messages
    rw [List.take_of_length_le]
    · exact hperm.symm.subset hQ
    · rw [hperm.length_eq]
      exact hlim

/-- Witness for C3 on a concrete batch: message 1 (confirmed, flagged) is
removed, message 2 (confirmed, unflagged) is marked delivered, message 3
(unconfirmed) is untouched and still listed, message 4 was already delivered
and is outside the batch. -/
theorem C3_read_incoming_delivery_witness :
    (∀ x ∈ (read_incoming_messages 1 "user" "7" recvFirstTwo stInc).messages,
      x.message_id ≠ mIncRemove.message_id) ∧
    { mIncMark with delivered := true } ∈
      (read_incoming_messages 1 "user" "7" recvFirstTwo stInc).messages ∧
    mIncSkip ∈
      list_incoming_messages 1 "user" "7" 100
        (read_incoming_messages 1 "user" "7" recvFirstTwo stInc) :=
  ⟨(C3_read_incoming_delivery 1 "user" "7" recvFirstTwo stInc 100 (by decide)
      (by decide)).2.1 mIncRemove (by decide) (by decide) (by decide),
   (C3_read_incoming_delivery 1 "user" "7" recvFirstTwo stInc 100 (by decide)
      (by decide)).2.2.1 mIncMark (by decide) (by decide) (by decide),
   ((C3_read_incoming_delivery 1 "user" "7" recvFirstTwo stInc 100 (by decide)
      (by decide)).2.2.2 mIncSkip (by decide) (by decide)).2.2⟩

/-- C2 counterexample: account 7 participates in the clustered guild group with
cluster id 3, so its cluster-partitioned recipient key is "guild-3"; yet the
message addressed to "guild-3" in the same gamespace is not returned by
`list_messages_account`, because the query's membership arm matches the exact
`group_key` ("guild") only, never the cluster-partitioned keys. -/
theorem C2_cluster_recipient_missed_counterexample :
    pGuildC3 ∈ stClu.participants ∧
    calculate_recipient pGuildC3 = "guild-3" ∧
    mClu ∈ stClu.messages ∧
    mClu.recipient = "guild-3" ∧
    mClu.recipient_class = grpGuild.group_class ∧
    mClu.gamespace = 1 ∧
    (list_messages_account 1 7 100 0 stClu).1 = .ok [] := by
  decide

/-- C2 (amended): for valid limit/offset, `list_messages_account` succeeds and
returns rows that (soundness) come from the gamespace's message table and
satisfy the feed condition — addressed to the exact `(group_class, group_key)`
of some group the account has a participation row in (the membership subquery
matches exact group keys, not cluster-partitioned recipients, and does not
restrict the group lookup by gamespace), or addressed to the account as a
user-class recipient, or sent by the account — with (order) the result
strictly descending in message id, hence no message id appears twice, and
(completeness) when the window covers the table every matching message is
returned. -/
theorem C2_account_feed_exact_keys (gamespace account : Nat) (limit offset : Int)
    (st : DBState)
    (hN : (st.messages.map Message.message_id).Nodup)
    (h1 : 1 ≤ limit) (h2 : limit ≤ 10000) (h3 : 0 ≤ offset) (h4 : offset ≤ 10000) :
    (list_messages_account gamespace account limit offset st).1 =
      .ok (okRows (list_messages_account gamespace account limit offset st)) ∧
    (okRows (list_messages_account gamespace account limit offset st)).Pairwise
      (fun a b => b.message_id < a.message_id) ∧
    (∀ m ∈ okRows (list_messages_account gamespace account limit offset st),
      m ∈ st.messages ∧ account_feed_spec st gamespace account m = true) ∧
    (offset = 0 → (st.messages.length : Int) ≤ limit →
      ∀ m ∈ st.messages, account_feed_spec st gamespace account m = true →
      m ∈ okRows (list_messages_account gamespace account limit offset st)) := by
  haveI instTot : IsTotal Message (fun a b => b.message_id ≤ a.message_id) :=
    ⟨fun a b => Nat.le_total _ _⟩
  haveI instTrans : IsTrans Message (fun a b => b.message_id ≤ a.message_id) :=
    ⟨fun _ _ _ hab hbc => Nat.le_trans hbc hab⟩
  have hc : (limit < 1 || 10000 < limit || offset < 0 || 10000 < offset) = false := by
    simp [not_lt.mpr h1, not_lt.mpr h2, not_lt.mpr h3, not_lt.mpr h4]
  have hne2 : ¬((limit < 1 || 10000 < limit || offset < 0 || 10000 < offset) = true) := by
    simp [hc]
  have hok : list_messages_account gamespace account limit offset st =
      (.ok (feed_window st gamespace account offset.toNat limit.toNat), 1) := by
    unfold list_messages_account
    exact if_neg hne2
  have hsub : ∀ x ∈ feed_union st gamespace account, x ∈ st.messages := by
    intro x hx
    simp only [feed_union, List.mem_dedup, List.mem_append] at hx
    rcases hx with (h | h) | h <;> exact (List.mem_filter.mp h).1
  have hinj : ∀ a ∈ st.messages, ∀ b ∈ st.messages, a.message_id = b.message_id → a = b :=
    fun a ha b hb => List.inj_on_of_nodup_map hN ha hb
  have hUnodup : (List.map Message.message_id (feed_union st gamespace account)).Nodup :=
    List.Nodup.map_on (fun x hx y hy => hinj x (hsub x hx) y (hsub y hy))
      (List.nodup_dedup _)
  have hperm := List.perm_insertionSort (fun a b => b.message_id ≤ a.message_id)
    (feed_union st gamespace account)
  have hSnodup : (List.map Message.message_id
      (List.insertionSort (fun a b => b.message_id ≤ a.message_id)
        (feed_union st gamespace account))).Nodup :=
    ((hperm.map Message.message_id).symm).nodup hUnodup
  have hsorted := List.sorted_insertionSort (fun a b => b.message_id ≤ a.message_id)
    (feed_union st gamespace account)
  have hSL : (feed_window st gamespace account offset.toNat limit.toNat).Sublist
      (List.insertionSort (fun a b => b.message_id ≤ a.message_id)
        (feed_union st gamespace account)) :=
    (List.take_sublist _ _).trans (List.drop_sublist _ _)
  have hWnodup : (List.map Message.message_id
      (feed_window st gamespace account offset.toNat limit.toNat)).Nodup :=
    (hSL.map Message.message_id).nodup hSnodup
  have hWge : (feed_window st gamespace account offset.toNat limit.toNat).Pairwise
      (fun a b => b.message_id ≤ a.message_id) := List.Pairwise.sublist hSL hsorted
  have hWne : (feed_window st gamespace account offset.toNat limit.toNat).Pairwise
      (fun a b => a.message_id ≠ b.message_id) := List.pairwise_map.mp hWnodup
  have hspec : ∀ m ∈ feed_union st gamespace account,
      account_feed_spec st gamespace account m = true := by
    intro m hm
    simp only [feed_union, List.mem_dedup, List.mem_append] at hm
    rcases hm with (h | h) | h
    · have hb := (List.mem_filter.mp h).2
      simp only [Bool.and_eq_true] at hb
      simp [account_feed_spec, hb.1, hb.2]
    · have hb := (List.mem_filter.mp h).2
      simp only [Bool.and_eq_true] at hb
      simp [account_feed_spec, hb.1.1, hb.1.2, hb.2]
    · have hb := (List.mem_filter.mp h).2
      simp only [Bool.and_eq_true] at hb
      simp [account_feed_spec, hb.1, hb.2]
  rw [hok]
  simp only [okRows]
  refine ⟨trivial, hWge.and hWne |>.imp
      (fun h => Nat.lt_of_le_of_ne h.1 (fun e => h.2 e.symm)), ?_, ?_⟩
  · intro m hm
    have hu : m ∈ feed_union st gamespace account :=
      hperm.subset (hSL.subset hm)
    exact ⟨hsub m hu, hspec m hu⟩
  · intro ho0 hlen m hm hs
    have hu : m ∈ feed_union st gamespace account := by
      simp only [account_feed_spec, Bool.and_eq_true, Bool.or_eq_true, beq_iff_eq] at hs
      simp only [feed_union, List.mem_dedup, List.mem_append]
      rcases hs.2 with (h | h) | h
      · exact Or.inl (Or.inl (List.mem_filter.mpr ⟨hm, by simp [hs.1, h]⟩))
      · exact Or.inl (Or.inr (List.mem_filter.mpr ⟨hm, by simp [hs.1, h.1, h.2]⟩))
      · exact Or.inr (List.mem_filter.mpr ⟨hm, by simp [hs.1, h]⟩)
    have h0l : (0 : Int) ≤ limit := le_trans (by decide) h1
    have hlen2 : (List.insertionSort (fun a b => b.message_id ≤ a.message_id)
        (feed_union st gamespace account)).length ≤ limit.toNat := by
      rw [hperm.length_eq]
      have hle1 : (feed_union st gamespace account).length ≤ st.messages.length :=
        (List.subperm_of_subset (List.nodup_dedup _) hsub).length_le
      have hle2 : st.messages.length ≤ limit.toNat :=
        (Int.le_toNat h0l).mpr hlen
      exact Nat.le_trans hle1 hle2
    unfold feed_window
    rw [ho0, Int.toNat_zero, List.drop_zero, List.take_of_length_le hlen2]
    exact hperm.symm.subset hu

/-- Witness for C2 on a concrete state: account 7 is a member of the guild
group; the feed contains the message to the exact group key, and the call
succeeds returning exactly its computed rows. -/
theorem C2_account_feed_exact_keys_witness :
    (list_messages_account 1 7 100 0 stFeed).1 =
      .ok (okRows (list_messages_account 1 7 100 0 stFeed)) ∧
    mFeedGroup ∈ okRows (list_messages_account 1 7 100 0 stFeed) :=
  ⟨(C2_account_feed_exact_keys 1 7 100 0 stFeed (by decide) (by decide) (by decide)
      (by decide) (by decide)).1,
   (C2_account_feed_exact_keys 1 7 100 0 stFeed (by decide) (by decide) (by decide)
      (by decide) (by decide)).2.2.2 rfl (by decide) mFeedGroup (by decide) (by decide)⟩

end Anthill
